import Mathlib

/-!
Shallow embedding of `src/backend/cs_server_fetcher.py` (module
`cs_server_fetcher`), the query core of the serverstat-hub repository.

Conventions of the embedding:
  * Python runtime values that reach the input validation of
    `resolve_address` are modelled by the inductive `PyVal`, so that the
    dynamic type checks (`isinstance`, truthiness) are captured exactly,
    including the fact that `bool` is a subclass of `int` in Python.
  * All I/O performed by one `fetch` call (DNS resolution via
    `socket.gethostbyname`, the `a2s.info` call, the `a2s.players` call,
    and the two `time.time()` readings taken around the `a2s.info` call)
    is abstracted into an explicit environment `A2SWorld` passed to the
    functions.  The `info` and `players` fields take the timeout value the
    code passes to the library, so theorems can observe which timeout is
    used.
  * Exceptions are values: `Except` for raising, and the inductive `PyExc`
    enumerates the exception classes distinguished by the `except` clauses
    of `fetch` (each constructor corresponds to the first clause that
    would catch it, respecting the Python class hierarchy ordering used in
    the source).
  * Python `float` timestamps and scores are modelled by `ℚ`.
  * The Python dict returned by `fetch_multiple` is modelled by an
    association list together with `dictInsert`, which has the
    insert-or-overwrite semantics of `d[k] = v`.
-/

/-- A Python runtime value, as far as the input validation of the fetcher
observes it: integers, booleans, strings, floats and `None`. -/
inductive PyVal where
  | pyInt (n : Int)
  | pyBool (b : Bool)
  | pyStr (s : String)
  | pyFloat (q : ℚ)
  | pyNone
deriving DecidableEq

/-- Python `isinstance(v, int)`.  True for `int` values and for `bool`
values, because `bool` is a subclass of `int` in Python. -/
def PyVal.isInstanceInt : PyVal → Bool
  | .pyInt _ => true
  | .pyBool _ => true
  | _ => false

/-- Python `isinstance(v, str)`. -/
def PyVal.isInstanceStr : PyVal → Bool
  | .pyStr _ => true
  | _ => false

/-- The integer value of an `int`-instance; `True` counts as 1 and `False`
as 0.  (Unused junk value 0 for the other constructors, which the code
rejects before using the value.) -/
def PyVal.intVal : PyVal → Int
  | .pyInt n => n
  | .pyBool b => if b then 1 else 0
  | _ => 0

/-- Python truthiness, as tested by `if not host`. -/
def PyVal.truthy : PyVal → Bool
  | .pyInt n => n != 0
  | .pyBool b => b
  | .pyStr s => s != ""
  | .pyFloat q => q != 0
  | .pyNone => false

/-- The underlying string of a `str`-instance (junk "" otherwise; the code
rejects non-strings before using the value). -/
def PyVal.strVal : PyVal → String
  | .pyStr s => s
  | _ => ""

/-- Python `str(v)`, as used by the f-string key `f"{host}:{port}"` in
`fetch_multiple` and by the `f"..., got {port}"` part of the range-check
error message (Python formats the original value, so a bool port renders
as `True`/`False`).  Floats are not rendered digit-exact because no claim
depends on float formatting. -/
def PyVal.str : PyVal → String
  | .pyInt n => toString n
  | .pyBool b => if b then "True" else "False"
  | .pyStr s => s
  | .pyFloat _ => "float"
  | .pyNone => "None"

/-- Python `str(type(v))`, used by the error message of the port type
check. -/
def PyVal.typeName : PyVal → String
  | .pyInt _ => "<class \x27int\x27>"
  | .pyBool _ => "<class \x27bool\x27>"
  | .pyStr _ => "<class \x27str\x27>"
  | .pyFloat _ => "<class \x27float\x27>"
  | .pyNone => "<class \x27NoneType\x27>"

/-- Outcome of `socket.gethostbyname(host)`: an IP string, a
`socket.gaierror`, or some other exception. -/
inductive ResolveOutcome where
  | ok (ip : String)
  | gaierror (msg : String)
  | otherError (msg : String)
deriving DecidableEq

/-- A DNS resolver environment. -/
abbrev Resolver := String → ResolveOutcome

/-- An exception raised by an `a2s` library call, sorted into the first
`except` clause of `fetch` that would catch it (the source lists the
clauses subclass-first: `ValueError`, `socket.timeout`,
`ConnectionRefusedError`, `ConnectionResetError`, `socket.error`,
`Exception`). -/
inductive PyExc where
  | valueError (msg : String)
  | socketTimeout
  | connectionRefused
  | connectionReset
  | socketError (msg : String)
  | other (msg : String)
deriving DecidableEq

/-- The fields of the `a2s.info` response object that `fetch` reads. -/
structure A2SInfo where
  server_name : String
  map_name : String
  player_count : Int
  max_players : Int
  game : String
  server_type : String
  platform : String
  password_protected : Bool
  vac_enabled : Bool
deriving DecidableEq

/-- One entry of the `a2s.players` response. -/
structure A2SPlayer where
  name : String
  score : Int
  duration : ℚ
deriving DecidableEq

/-- The I/O environment one `fetch` call observes: the DNS resolver, the
`a2s.info` and `a2s.players` calls (each applied to the timeout argument
the code passes and to the resolved address), and the two `time.time()`
readings `t0` (just before `a2s.info`) and `t1` (just after `a2s.info`
returns its parsed response). -/
structure A2SWorld where
  resolver : Resolver
  info : ℚ → String × Int → Except PyExc A2SInfo
  players : ℚ → String × Int → Except PyExc (List A2SPlayer)
  t0 : ℚ
  t1 : ℚ

/-- The `"data"` dictionary of a successful fetch. -/
structure ServerData where
  hostname : String
  map : String
  current_players : Int
  max_players : Int
  game : String
  server_type : String
  os : String
  password_protected : Bool
  vac_enabled : Bool
  ping : ℚ
  player_list : List A2SPlayer
deriving DecidableEq

/-- The dictionary returned by `fetch`: `{"success": bool, "data": {...}}`
on success, `{"success": False, "error": str}` on failure.  A key the code
does not set is `none`. -/
structure FetchResult where
  success : Bool
  data : Option ServerData
  error : Option String
deriving DecidableEq

/-- The class constant `CS16ServerFetcher.DEFAULT_TIMEOUT = 3.0`. -/
def DEFAULT_TIMEOUT : ℚ := 3

/-- The class constant `CS16ServerFetcher.MIN_PORT = 1`. -/
def MIN_PORT : Int := 1

/-- The class constant `CS16ServerFetcher.MAX_PORT = 65535`. -/
def MAX_PORT : Int := 65535

/-- The fetcher object: its only state is the stored timeout. -/
structure CS16ServerFetcher where
  timeout : ℚ
deriving DecidableEq

/-- The constructor `CS16ServerFetcher.__init__`:
`self.timeout = max(timeout, 0.5)`. -/
def CS16ServerFetcher.init (timeout : ℚ) : CS16ServerFetcher :=
  ⟨max timeout 0.5⟩

/-- Embedding of `CS16ServerFetcher.resolve_address`: validates the port (a Python
`isinstance(port, int)` check, then the `[MIN_PORT, MAX_PORT]` range
check), then the host (`not host or not isinstance(host, str)`), then
calls `socket.gethostbyname`; every failure raises `ValueError` with the
message built by the source. -/
def CS16ServerFetcher.resolve_address (_f : CS16ServerFetcher) (resolver : Resolver)
    (host port : PyVal) : Except String (String × Int) :=
  if ¬ port.isInstanceInt then
    .error ("Port must be an integer, got " ++ port.typeName)
  else if port.intVal < MIN_PORT ∨ port.intVal > MAX_PORT then
    .error ("Port must be between " ++ toString MIN_PORT ++ " and " ++ toString MAX_PORT
      ++ ", got " ++ port.str)
  else if ¬ host.truthy ∨ ¬ host.isInstanceStr then
    .error "Host must be a non-empty string"
  else
    match resolver host.strVal with
    | .ok ip => .ok (ip, port.intVal)
    | .gaierror m =>
        .error ("Cannot resolve hostname \x27" ++ host.strVal ++ "\x27: " ++ m)
    | .otherError m => .error ("Address resolution error: " ++ m)

/-- Embedding of `CS16ServerFetcher._fetch_player_list`: calls `a2s.players` with the
stored timeout, keeps only entries whose name is truthy (non-empty), and
swallows every exception into an empty list. -/
def CS16ServerFetcher.fetchPlayerList (f : CS16ServerFetcher) (w : A2SWorld)
    (address : String × Int) : List A2SPlayer :=
  match w.players f.timeout address with
  | .ok players =>
      (players.filter fun p => p.name != "").map fun p =>
        { name := p.name, score := p.score, duration := p.duration }
  | .error _ => []

/-- Round to the nearest integer, ties to even: the tie-breaking rule of
Python `round`. -/
def roundHalfEven (q : ℚ) : Int :=
  if q - ⌊q⌋ < 1/2 then ⌊q⌋
  else if 1/2 < q - ⌊q⌋ then ⌊q⌋ + 1
  else if ⌊q⌋ % 2 = 0 then ⌊q⌋ else ⌊q⌋ + 1

/-- Python `round(x, 2)`: round to 2 decimal places. -/
def round2 (q : ℚ) : ℚ := (roundHalfEven (q * 100) : ℚ) / 100

/-- The `except` clauses of `fetch`: the error string produced for each
caught exception class. -/
def fetchExcMessage : PyExc → String
  | .valueError m => m
  | .socketTimeout => "Connection timeout - server may be offline"
  | .connectionRefused => "Connection refused - invalid IP or port"
  | .connectionReset => "Connection reset - server may be offline"
  | .socketError m => "Network error: " ++ m
  | .other m => "Failed to query server: " ++ m

/-- Embedding of `CS16ServerFetcher.fetch`: resolve, query INFO while timing it, query
the player list best-effort, assemble the result dictionary; every raised
exception is caught and turned into `{"success": False, "error": ...}`. -/
def CS16ServerFetcher.fetch (f : CS16ServerFetcher) (w : A2SWorld)
    (host port : PyVal) : FetchResult :=
  match f.resolve_address w.resolver host port with
  | .error msg => { success := false, data := none, error := some msg }
  | .ok address =>
    match w.info f.timeout address with
    | .error e => { success := false, data := none, error := some (fetchExcMessage e) }
    | .ok info =>
      { success := true
        data := some
          { hostname := info.server_name
            map := info.map_name
            current_players := info.player_count
            max_players := info.max_players
            game := info.game
            server_type := info.server_type
            os := info.platform
            password_protected := info.password_protected
            vac_enabled := info.vac_enabled
            ping := round2 ((w.t1 - w.t0) * 1000)
            player_list := f.fetchPlayerList w address }
        error := none }

/-- Python dict assignment `d[k] = v` on an association list: overwrite
the existing binding of `k` in place if present, otherwise append. -/
def dictInsert (k : String) (v : FetchResult) :
    List (String × FetchResult) → List (String × FetchResult)
  | [] => [(k, v)]
  | (k0, v0) :: rest => if k0 = k then (k, v) :: rest else (k0, v0) :: dictInsert k v rest

/-- Python dict lookup `d[k]` (as an `Option`). -/
def dictLookup (k : String) (d : List (String × FetchResult)) : Option FetchResult :=
  (d.find? fun e => e.1 == k).map Prod.snd

/-- The key `f"{host}:{port}"` built by `fetch_multiple`. -/
def serverKey (host port : PyVal) : String := host.str ++ ":" ++ port.str

/-- Embedding of `CS16ServerFetcher.fetch_multiple`: a sequential `for` loop over the
requested servers, assigning `results[f"{host}:{port}"] = self.fetch(host,
port)` at each step. -/
def CS16ServerFetcher.fetch_multiple (f : CS16ServerFetcher) (w : A2SWorld)
    (servers : List (PyVal × PyVal)) : List (String × FetchResult) :=
  servers.foldl (fun results s => dictInsert (serverKey s.1 s.2) (f.fetch w s.1 s.2) results) []

/-- Sequential cost semantics of the `fetch_multiple` loop.  Each
iteration of the `for` loop calls `self.fetch(host, port)` synchronously
and the next iteration starts only after it returns, so with `fetchTime s`
the wall-clock duration of the fetch for server `s`, the elapsed time of
the whole loop is the running sum of the per-server durations. -/
def fetchMultipleElapsed (fetchTime : PyVal × PyVal → ℚ)
    (servers : List (PyVal × PyVal)) : ℚ :=
  servers.foldl (fun acc s => acc + fetchTime s) 0

/-- The module-level factory `create_fetcher(timeout)`. -/
def create_fetcher (timeout : ℚ) : CS16ServerFetcher :=
  CS16ServerFetcher.init timeout

/-- The module-level convenience function `query_server(host, port,
timeout)`: creates a fetcher with `create_fetcher` and calls its
`fetch`. -/
def query_server (host port : PyVal) (timeout : ℚ) (w : A2SWorld) : FetchResult :=
  (create_fetcher timeout).fetch w host port

/-- Concrete INFO payload used by concrete witness instances. -/
def demoInfo : A2SInfo :=
  { server_name := "demo", map_name := "de_dust2", player_count := 5, max_players := 32
    game := "Counter-Strike", server_type := "d", platform := "l"
    password_protected := false, vac_enabled := true }

/-- A concrete world in which resolution and INFO succeed and the PLAYER
query raises a timeout. -/
def demoWorldPlayersFail : A2SWorld :=
  { resolver := fun _ => .ok "203.0.113.5"
    info := fun _ _ => .ok demoInfo
    players := fun _ _ => .error .socketTimeout
    t0 := 0
    t1 := 1/20 }

/-- A concrete world in which every step succeeds; the PLAYER response
contains one padding slot (empty name) and one real player. -/
def demoWorldPlayersOk : A2SWorld :=
  { resolver := fun _ => .ok "203.0.113.5"
    info := fun _ _ => .ok demoInfo
    players := fun _ _ => .ok [⟨"", 0, 0⟩, ⟨"bob", 7, 125⟩]
    t0 := 0
    t1 := 1/20 }

/-- A concrete batch of three servers, as in the multiple-server test of
the repository. -/
def demoServers : List (PyVal × PyVal) :=
  [(.pyStr "invalid1.test", .pyInt 27015),
   (.pyStr "invalid2.test", .pyInt 27015),
   (.pyStr "invalid3.test", .pyInt 27015)]

/-- If `resolve_address` succeeds then every validation check passed and
the resolver returned the IP. -/
lemma resolve_ok_inv (f : CS16ServerFetcher) (r : Resolver) (host port : PyVal)
    (ip : String) (p : Int)
    (h : f.resolve_address r host port = .ok (ip, p)) :
    port.isInstanceInt = true ∧ MIN_PORT ≤ port.intVal ∧ port.intVal ≤ MAX_PORT ∧
    host.truthy = true ∧ host.isInstanceStr = true ∧
    r host.strVal = .ok ip ∧ p = port.intVal := by
  unfold CS16ServerFetcher.resolve_address at h
  split_ifs at h with h1 h2 h3
  · push_neg at h2
    rw [not_or, not_not, not_not] at h3
    cases hr : r host.strVal with
    | ok ip2 =>
        rw [hr] at h
        simp only [Except.ok.injEq, Prod.mk.injEq] at h
        exact ⟨by simpa using h1, h2.1, h2.2, h3.1, h3.2, congrArg ResolveOutcome.ok h.1, h.2.symm⟩
    | gaierror m => rw [hr] at h; simp at h
    | otherError m => rw [hr] at h; simp at h

/-- When resolution raises, `fetch` returns the tagged failure carrying
the `ValueError` message. -/
lemma fetch_of_resolve_error (f : CS16ServerFetcher) (w : A2SWorld) (host port : PyVal)
    (msg : String) (h : f.resolve_address w.resolver host port = .error msg) :
    f.fetch w host port = { success := false, data := none, error := some msg } := by
  unfold CS16ServerFetcher.fetch
  rw [h]

/-- The function `fetch` reads its environment only through the resolver, the two
queries applied at the stored timeout, and the two clock readings. -/
lemma fetch_congr (f : CS16ServerFetcher) (w w2 : A2SWorld) (host port : PyVal)
    (hres : w2.resolver = w.resolver)
    (hinfo : w2.info f.timeout = w.info f.timeout)
    (hpl : w2.players f.timeout = w.players f.timeout)
    (ht0 : w2.t0 = w.t0) (ht1 : w2.t1 = w.t1) :
    f.fetch w2 host port = f.fetch w host port := by
  unfold CS16ServerFetcher.fetch
  rw [hres]
  cases hr : f.resolve_address w.resolver host port with
  | error m => rfl
  | ok addr =>
    dsimp only
    rw [hinfo]
    cases hi : w.info f.timeout addr with
    | error e => rfl
    | ok i =>
      dsimp only
      unfold CS16ServerFetcher.fetchPlayerList
      rw [hpl, ht0, ht1]

/-- C4: `fetch` is total at its boundary: for every environment and every
input it returns a tagged result, and exactly one of the success data and
the error message is populated — a successful result carries data and no
error, a failed result carries a (nonempty-classifying) error string and
no data.  Totality over every exception outcome is expressed by the
quantification over all `A2SWorld` environments, whose query fields range
over every `PyExc` constructor including the catch-all `other`. -/
theorem fetch_total_boundary (f : CS16ServerFetcher) (w : A2SWorld) (host port : PyVal) :
    ((f.fetch w host port).success = true ∧ ((f.fetch w host port).data).isSome = true
        ∧ (f.fetch w host port).error = none)
    ∨ ((f.fetch w host port).success = false ∧ (f.fetch w host port).data = none
        ∧ ((f.fetch w host port).error).isSome = true) := by
  unfold CS16ServerFetcher.fetch
  cases f.resolve_address w.resolver host port with
  | error m => exact Or.inr ⟨rfl, rfl, rfl⟩
  | ok addr =>
    dsimp only
    cases w.info f.timeout addr with
    | error e => exact Or.inr ⟨rfl, rfl, rfl⟩
    | ok i => exact Or.inl ⟨rfl, rfl, rfl⟩

/-- C9: the convenience entry point `query_server(host, port, timeout)`
returns exactly the result of building a fetcher with
`create_fetcher(timeout)` and calling its `fetch(host, port)` in the same
environment: the two public entry points are equivalent. -/
theorem query_server_eq_create_fetcher_fetch (host port : PyVal) (timeout : ℚ)
    (w : A2SWorld) :
    query_server host port timeout w = (create_fetcher timeout).fetch w host port := rfl

/-- C6: the constructor stores `max(timeout, 0.5)`, so the effective
timeout is floored at 0.5 seconds, and every query round trip of `fetch`
observes only that floored value: two environments that agree at timeout
`max t 0.5` (and on the resolver and clock) produce identical fetch
results. -/
theorem timeout_floor (t : ℚ) (w w2 : A2SWorld) (host port : PyVal)
    (hres : w2.resolver = w.resolver)
    (hinfo : w2.info (max t 0.5) = w.info (max t 0.5))
    (hpl : w2.players (max t 0.5) = w.players (max t 0.5))
    (ht0 : w2.t0 = w.t0) (ht1 : w2.t1 = w.t1) :
    (CS16ServerFetcher.init t).timeout = max t 0.5 ∧
    (0.5 : ℚ) ≤ (CS16ServerFetcher.init t).timeout ∧
    (CS16ServerFetcher.init t).fetch w2 host port
      = (CS16ServerFetcher.init t).fetch w host port := by
  refine ⟨rfl, le_max_right _ _, ?_⟩
  exact fetch_congr _ w w2 host port hres hinfo hpl ht0 ht1

/-- Witness for C6 at `t = 3` in a concrete environment. -/
theorem timeout_floor_witness :
    (CS16ServerFetcher.init 3).timeout = max 3 0.5 ∧
    (0.5 : ℚ) ≤ (CS16ServerFetcher.init 3).timeout ∧
    (CS16ServerFetcher.init 3).fetch demoWorldPlayersOk (.pyStr "h") (.pyInt 27015)
      = (CS16ServerFetcher.init 3).fetch demoWorldPlayersOk (.pyStr "h") (.pyInt 27015) :=
  timeout_floor 3 demoWorldPlayersOk demoWorldPlayersOk (.pyStr "h") (.pyInt 27015)
    rfl rfl rfl rfl rfl

/-- C7: on a successful fetch the reported ping is the elapsed time from
the clock reading taken just before the INFO query to the reading taken
just after the INFO response is parsed, times 1000 (milliseconds), rounded
to 2 decimal places; the PLAYER query happens after the second reading and
does not enter the measurement. -/
theorem ping_info_window (f : CS16ServerFetcher) (w : A2SWorld) (host port : PyVal)
    (addr : String × Int) (i : A2SInfo)
    (hr : f.resolve_address w.resolver host port = .ok addr)
    (hi : w.info f.timeout addr = .ok i) :
    ∃ d, (f.fetch w host port).data = some d
      ∧ d.ping = round2 ((w.t1 - w.t0) * 1000) := by
  unfold CS16ServerFetcher.fetch
  rw [hr]
  dsimp only
  rw [hi]
  exact ⟨_, rfl, rfl⟩

/-- Witness for C7 in a concrete environment (50 ms between the two clock
readings). -/
theorem ping_info_window_witness :
    ∃ d, ((CS16ServerFetcher.init 3).fetch demoWorldPlayersOk (.pyStr "h")
        (.pyInt 27015)).data = some d
      ∧ d.ping = round2 ((demoWorldPlayersOk.t1 - demoWorldPlayersOk.t0) * 1000) :=
  ping_info_window (CS16ServerFetcher.init 3) demoWorldPlayersOk (.pyStr "h") (.pyInt 27015)
    ("203.0.113.5", 27015) demoInfo rfl rfl

/-- C3: when resolution and the INFO query succeed, any exception raised
by the PLAYER query is swallowed: the fetch still succeeds and its player
list is empty; a PLAYER failure never turns the fetch into a failure. -/
theorem player_failure_swallowed (f : CS16ServerFetcher) (w : A2SWorld)
    (host port : PyVal) (addr : String × Int) (i : A2SInfo) (e : PyExc)
    (hr : f.resolve_address w.resolver host port = .ok addr)
    (hi : w.info f.timeout addr = .ok i)
    (hp : w.players f.timeout addr = .error e) :
    (f.fetch w host port).success = true ∧
    ∃ d, (f.fetch w host port).data = some d ∧ d.player_list = [] := by
  unfold CS16ServerFetcher.fetch
  rw [hr]
  dsimp only
  rw [hi]
  dsimp only
  unfold CS16ServerFetcher.fetchPlayerList
  rw [hp]
  exact ⟨rfl, _, rfl, rfl⟩

/-- Witness for C3: a concrete world whose PLAYER query raises a socket
timeout still yields a successful fetch with an empty player list. -/
theorem player_failure_swallowed_witness :
    ((CS16ServerFetcher.init 3).fetch demoWorldPlayersFail (.pyStr "h")
        (.pyInt 27015)).success = true ∧
    ∃ d, ((CS16ServerFetcher.init 3).fetch demoWorldPlayersFail (.pyStr "h")
        (.pyInt 27015)).data = some d ∧ d.player_list = [] :=
  player_failure_swallowed (CS16ServerFetcher.init 3) demoWorldPlayersFail
    (.pyStr "h") (.pyInt 27015) ("203.0.113.5", 27015) demoInfo .socketTimeout
    rfl rfl rfl

/-- C8: the player list built from a successful PLAYER query keeps exactly
the entries with a non-empty name (with their name, score and duration)
and drops the empty-named padding entries, so every returned entry has a
non-empty name. -/
theorem player_list_drops_empty_names (f : CS16ServerFetcher) (w : A2SWorld)
    (addr : String × Int) (ps : List A2SPlayer)
    (hp : w.players f.timeout addr = .ok ps) :
    f.fetchPlayerList w addr
      = (ps.filter fun p => p.name != "").map
          (fun p => { name := p.name, score := p.score, duration := p.duration }) ∧
    ∀ q ∈ f.fetchPlayerList w addr, q.name ≠ "" := by
  constructor
  · unfold CS16ServerFetcher.fetchPlayerList
    rw [hp]
  · intro q hq
    unfold CS16ServerFetcher.fetchPlayerList at hq
    rw [hp] at hq
    simp only [List.mem_map, List.mem_filter] at hq
    obtain ⟨p, ⟨hmem, hname⟩, rfl⟩ := hq
    simpa using hname

/-- Witness for C8: the demo PLAYER response has one padding slot and one
real player, and only the real player is returned. -/
theorem player_list_drops_empty_names_witness :
    (CS16ServerFetcher.init 3).fetchPlayerList demoWorldPlayersOk ("203.0.113.5", 27015)
      = (([⟨"", 0, 0⟩, ⟨"bob", 7, 125⟩] : List A2SPlayer).filter fun p => p.name != "").map
          (fun p => { name := p.name, score := p.score, duration := p.duration }) ∧
    ∀ q ∈ (CS16ServerFetcher.init 3).fetchPlayerList demoWorldPlayersOk
        ("203.0.113.5", 27015), q.name ≠ "" :=
  player_list_drops_empty_names (CS16ServerFetcher.init 3) demoWorldPlayersOk
    ("203.0.113.5", 27015) ([⟨"", 0, 0⟩, ⟨"bob", 7, 125⟩] : List A2SPlayer) rfl

/-- C2: whenever the port is not an int-instance, or its value lies
outside [1, 65535], or the host is empty or not a string, or host
resolution fails, `resolve_address` raises `ValueError` (surfaced by
`fetch` as a tagged failure with no data), and the fetch result is
independent of the query environment — any environment with the same
resolver produces the identical result, so no query I/O is observed. -/
theorem invalid_input_rejected (f : CS16ServerFetcher) (w w2 : A2SWorld)
    (host port : PyVal)
    (hres : w2.resolver = w.resolver)
    (hbad : port.isInstanceInt = false ∨ port.intVal < MIN_PORT
      ∨ MAX_PORT < port.intVal
      ∨ host.truthy = false ∨ host.isInstanceStr = false
      ∨ (∃ m, w.resolver host.strVal = .gaierror m)
      ∨ (∃ m, w.resolver host.strVal = .otherError m)) :
    (∃ msg, f.resolve_address w.resolver host port = .error msg) ∧
    (f.fetch w host port).success = false ∧
    (f.fetch w host port).data = none ∧
    f.fetch w2 host port = f.fetch w host port := by
  have herr : ∃ msg, f.resolve_address w.resolver host port = .error msg := by
    cases hr : f.resolve_address w.resolver host port with
    | error m => exact ⟨m, rfl⟩
    | ok pr =>
      obtain ⟨ip, p⟩ := pr
      obtain ⟨h1, h2, h3, h4, h5, h6, h7⟩ :=
        resolve_ok_inv f w.resolver host port ip p hr
      exfalso
      rcases hbad with h | h | h | h | h | ⟨m, hm⟩ | ⟨m, hm⟩
      · rw [h1] at h; cases h
      · exact absurd h2 (not_le.mpr h)
      · exact absurd h3 (not_le.mpr h)
      · rw [h4] at h; cases h
      · rw [h5] at h; cases h
      · rw [h6] at hm; cases hm
      · rw [h6] at hm; cases hm
  obtain ⟨msg, hmsg⟩ := herr
  have e1 := fetch_of_resolve_error f w host port msg hmsg
  have e2 := fetch_of_resolve_error f w2 host port msg (by rw [hres]; exact hmsg)
  rw [e1, e2]
  exact ⟨⟨msg, hmsg⟩, rfl, rfl, rfl⟩

/-- Witness for C2 at the concrete out-of-range port 0. -/
theorem invalid_input_rejected_witness :
    (∃ msg, (CS16ServerFetcher.init 3).resolve_address demoWorldPlayersOk.resolver
        (.pyStr "h") (.pyInt 0) = .error msg) ∧
    ((CS16ServerFetcher.init 3).fetch demoWorldPlayersOk (.pyStr "h") (.pyInt 0)).success
      = false ∧
    ((CS16ServerFetcher.init 3).fetch demoWorldPlayersOk (.pyStr "h") (.pyInt 0)).data
      = none ∧
    (CS16ServerFetcher.init 3).fetch demoWorldPlayersOk (.pyStr "h") (.pyInt 0)
      = (CS16ServerFetcher.init 3).fetch demoWorldPlayersOk (.pyStr "h") (.pyInt 0) :=
  invalid_input_rejected (CS16ServerFetcher.init 3) demoWorldPlayersOk demoWorldPlayersOk
    (.pyStr "h") (.pyInt 0) rfl (Or.inr (Or.inl (by decide)))

/-- C10: Python booleans are int-instances, so `resolve_address` does not
reject them at the type check: with a resolvable non-empty host, port
`True` passes both checks and proceeds as port 1, while port `False`
(value 0) is rejected by the range check — its error is the range message
(rendering the bool repr, "got False"), not the type message. -/
theorem bool_port_isinstance (f : CS16ServerFetcher) (r : Resolver) (s ip : String)
    (hs : s ≠ "") (hr : r s = .ok ip) :
    PyVal.isInstanceInt (.pyBool true) = true ∧
    PyVal.isInstanceInt (.pyBool false) = true ∧
    f.resolve_address r (.pyStr s) (.pyBool true) = .ok (ip, 1) ∧
    f.resolve_address r (.pyStr s) (.pyBool false) =
      .error "Port must be between 1 and 65535, got False" := by
  refine ⟨rfl, rfl, ?_, ?_⟩
  · unfold CS16ServerFetcher.resolve_address
    rw [if_neg (by decide), if_neg (by decide),
      if_neg (by simp [PyVal.truthy, PyVal.isInstanceStr, hs])]
    simp only [PyVal.strVal]
    rw [hr]
    rfl
  · unfold CS16ServerFetcher.resolve_address
    rw [if_neg (by decide), if_pos (by decide)]
    rfl

/-- Witness for C10 with a concrete resolver. -/
theorem bool_port_isinstance_witness :
    PyVal.isInstanceInt (.pyBool true) = true ∧
    PyVal.isInstanceInt (.pyBool false) = true ∧
    (CS16ServerFetcher.init 3).resolve_address demoWorldPlayersOk.resolver
      (.pyStr "example.com") (.pyBool true) = .ok ("203.0.113.5", 1) ∧
    (CS16ServerFetcher.init 3).resolve_address demoWorldPlayersOk.resolver
      (.pyStr "example.com") (.pyBool false) =
      .error "Port must be between 1 and 65535, got False" :=
  bool_port_isinstance (CS16ServerFetcher.init 3) demoWorldPlayersOk.resolver
    "example.com" "203.0.113.5" (by decide) rfl

/-- Folding additions starting from an accumulator equals the accumulator
plus the sum of the mapped list. -/
lemma foldl_add_eq_sum (ft : PyVal × PyVal → ℚ) (l : List (PyVal × PyVal)) :
    ∀ a : ℚ, l.foldl (fun acc s => acc + ft s) a = a + (l.map ft).sum := by
  induction l with
  | nil => intro a; simp
  | cons s l ih =>
      intro a
      simp only [List.foldl_cons, List.map_cons, List.sum_cons, ih (a + ft s)]
      ring

/-- C1 (amended): `fetch_multiple` runs the per-address fetches
sequentially in request order, so the total wall-clock time of the
coordinator is the sum of the per-address fetch durations — bounded by
N times the per-fetch time bound, not by one single-query timeout — and a
slow address adds its full duration ahead of every later address. -/
theorem fetch_multiple_sequential_elapsed (ft : PyVal × PyVal → ℚ)
    (servers : List (PyVal × PyVal)) (T : ℚ)
    (hT : ∀ s ∈ servers, ft s ≤ T) :
    fetchMultipleElapsed ft servers = (servers.map ft).sum ∧
    fetchMultipleElapsed ft servers ≤ servers.length * T := by
  have hsum : fetchMultipleElapsed ft servers = (servers.map ft).sum := by
    unfold fetchMultipleElapsed
    rw [foldl_add_eq_sum ft servers 0, zero_add]
  refine ⟨hsum, ?_⟩
  rw [hsum]
  have hb : (servers.map ft).sum ≤ (servers.map ft).length • T := by
    refine List.sum_le_card_nsmul _ T ?_
    intro x hx
    obtain ⟨s, hs, rfl⟩ := List.mem_map.mp hx
    exact hT s hs
  rw [List.length_map] at hb
  simpa [nsmul_eq_mul] using hb

/-- Witness for C1 (amended) on the concrete three-server batch, every
fetch taking the full default timeout. -/
theorem fetch_multiple_sequential_elapsed_witness :
    fetchMultipleElapsed (fun _ => DEFAULT_TIMEOUT) demoServers
      = ((demoServers.map fun _ => DEFAULT_TIMEOUT).sum) ∧
    fetchMultipleElapsed (fun _ => DEFAULT_TIMEOUT) demoServers
      ≤ demoServers.length * DEFAULT_TIMEOUT :=
  fetch_multiple_sequential_elapsed (fun _ => DEFAULT_TIMEOUT) demoServers
    DEFAULT_TIMEOUT (fun _ _ => le_refl _)

/-- C1 counterexample: with three addresses whose fetches each take the
full default single-query timeout (3 s) — as when all three time out —
the sequential loop of `fetch_multiple` takes 9 s, which is three
single-query timeouts and exceeds even a generous doubled reading of
"roughly one single-query timeout". -/
theorem fetch_multiple_not_one_timeout :
    fetchMultipleElapsed (fun _ => DEFAULT_TIMEOUT) demoServers
      = 3 * DEFAULT_TIMEOUT ∧
    ¬ (fetchMultipleElapsed (fun _ => DEFAULT_TIMEOUT) demoServers
        ≤ 2 * DEFAULT_TIMEOUT) := by
  constructor
  · norm_num [fetchMultipleElapsed, demoServers, DEFAULT_TIMEOUT]
  · norm_num [fetchMultipleElapsed, demoServers, DEFAULT_TIMEOUT]

/-- One iteration of the `fetch_multiple` loop. -/
def fetchStep (f : CS16ServerFetcher) (w : A2SWorld)
    (results : List (String × FetchResult)) (s : PyVal × PyVal) :
    List (String × FetchResult) :=
  dictInsert (serverKey s.1 s.2) (f.fetch w s.1 s.2) results

lemma fetch_multiple_eq_foldl (f : CS16ServerFetcher) (w : A2SWorld)
    (servers : List (PyVal × PyVal)) :
    f.fetch_multiple w servers = List.foldl (fetchStep f w) [] servers := rfl

/-- The last requested (host, port) pair whose key is `k`. -/
def lastRequest (servers : List (PyVal × PyVal)) (k : String) :
    Option (PyVal × PyVal) :=
  servers.foldl (fun acc s => if serverKey s.1 s.2 = k then some s else acc) none

lemma lookup_dictInsert_self (k : String) (v : FetchResult)
    (d : List (String × FetchResult)) :
    dictLookup k (dictInsert k v d) = some v := by
  induction d with
  | nil =>
      unfold dictInsert dictLookup
      rw [List.find?_cons_of_pos _ (by simp)]
      rfl
  | cons e d ih =>
      obtain ⟨k0, v0⟩ := e
      by_cases h : k0 = k
      · unfold dictInsert
        rw [if_pos h]
        unfold dictLookup
        rw [List.find?_cons_of_pos _ (by simp)]
        rfl
      · unfold dictInsert
        rw [if_neg h]
        unfold dictLookup
        rw [List.find?_cons_of_neg _ (by simp [h])]
        exact ih

lemma lookup_dictInsert_ne (k k2 : String) (v : FetchResult)
    (d : List (String × FetchResult)) (h : k2 ≠ k) :
    dictLookup k2 (dictInsert k v d) = dictLookup k2 d := by
  induction d with
  | nil =>
      unfold dictInsert dictLookup
      rw [List.find?_cons_of_neg _ (by simp [Ne.symm h])]
  | cons e d ih =>
      obtain ⟨k0, v0⟩ := e
      by_cases h0 : k0 = k
      · subst h0
        unfold dictInsert
        rw [if_pos rfl]
        unfold dictLookup
        rw [List.find?_cons_of_neg _ (by simp [Ne.symm h]),
          List.find?_cons_of_neg _ (by simp [Ne.symm h])]
      · unfold dictInsert
        rw [if_neg h0]
        by_cases h2 : k0 = k2
        · subst h2
          unfold dictLookup
          rw [List.find?_cons_of_pos _ (by simp), List.find?_cons_of_pos _ (by simp)]
        · unfold dictLookup
          rw [List.find?_cons_of_neg _ (by simp [h2]),
            List.find?_cons_of_neg _ (by simp [h2])]
          exact ih

lemma mem_keys_dictInsert (x k : String) (v : FetchResult)
    (d : List (String × FetchResult)) :
    x ∈ (dictInsert k v d).map Prod.fst ↔ x = k ∨ x ∈ d.map Prod.fst := by
  induction d with
  | nil =>
      unfold dictInsert
      simp
  | cons e d ih =>
      obtain ⟨k0, v0⟩ := e
      by_cases h : k0 = k
      · subst h
        unfold dictInsert
        rw [if_pos rfl]
        simp only [List.map_cons, List.mem_cons]
        tauto
      · unfold dictInsert
        rw [if_neg h]
        simp only [List.map_cons, List.mem_cons]
        rw [ih]
        tauto

lemma nodup_keys_dictInsert (k : String) (v : FetchResult)
    (d : List (String × FetchResult)) (h : (d.map Prod.fst).Nodup) :
    ((dictInsert k v d).map Prod.fst).Nodup := by
  induction d with
  | nil =>
      unfold dictInsert
      simp
  | cons e d ih =>
      obtain ⟨k0, v0⟩ := e
      simp only [List.map_cons, List.nodup_cons] at h
      by_cases hk : k0 = k
      · subst hk
        unfold dictInsert
        rw [if_pos rfl]
        simp only [List.map_cons, List.nodup_cons]
        exact h
      · unfold dictInsert
        rw [if_neg hk]
        simp only [List.map_cons, List.nodup_cons]
        refine ⟨?_, ih h.2⟩
        rw [mem_keys_dictInsert]
        push_neg
        exact ⟨hk, h.1⟩

lemma isSome_dictLookup_iff (k : String) (d : List (String × FetchResult)) :
    (dictLookup k d).isSome = true ↔ k ∈ d.map Prod.fst := by
  induction d with
  | nil => simp [dictLookup]
  | cons e d ih =>
      obtain ⟨k0, v0⟩ := e
      by_cases h : k0 = k
      · subst h
        unfold dictLookup
        rw [List.find?_cons_of_pos _ (by simp)]
        simp
      · unfold dictLookup at ih ⊢
        rw [List.find?_cons_of_neg _ (by simp [h])]
        rw [ih]
        simp only [List.map_cons, List.mem_cons]
        constructor
        · exact Or.inr
        · rintro (hh | hh)
          · exact absurd hh (fun hh2 => h hh2.symm)
          · exact hh

lemma lastRequest_foldl (k : String) (l : List (PyVal × PyVal)) :
    ∀ a : Option (PyVal × PyVal),
      List.foldl (fun acc s => if serverKey s.1 s.2 = k then some s else acc) a l
        = (lastRequest l k).elim a some := by
  induction l with
  | nil => intro a; simp [lastRequest]
  | cons s l ih =>
      intro a
      have hstep : lastRequest (s :: l) k
          = (lastRequest l k).elim (if serverKey s.1 s.2 = k then some s else none)
              some := by
        unfold lastRequest
        rw [List.foldl_cons]
        exact ih _
      rw [List.foldl_cons, ih, hstep]
      cases hl : lastRequest l k with
      | some t => simp
      | none =>
          by_cases hk : serverKey s.1 s.2 = k
          · simp [hk]
          · simp [hk]

lemma fetchLoop_lookup (f : CS16ServerFetcher) (w : A2SWorld) (k : String)
    (l : List (PyVal × PyVal)) :
    ∀ acc : List (String × FetchResult),
      dictLookup k (List.foldl (fetchStep f w) acc l)
        = (lastRequest l k).elim (dictLookup k acc)
            (fun s => some (f.fetch w s.1 s.2)) := by
  induction l with
  | nil => intro acc; simp [lastRequest]
  | cons s l ih =>
      intro acc
      rw [List.foldl_cons, ih]
      have hstep : lastRequest (s :: l) k
          = (lastRequest l k).elim
              (if serverKey s.1 s.2 = k then some s else none) some := by
        unfold lastRequest
        rw [List.foldl_cons]
        exact lastRequest_foldl k l _
      rw [hstep]
      cases hl : lastRequest l k with
      | some t => simp
      | none =>
          by_cases hk : serverKey s.1 s.2 = k
          · simp only [hk, if_true, Option.elim_none, Option.elim_some]
            unfold fetchStep
            rw [hk, lookup_dictInsert_self]
          · simp only [hk, if_false, Option.elim_none]
            unfold fetchStep
            rw [lookup_dictInsert_ne _ _ _ _ (fun h => hk h.symm)]

lemma fetchLoop_mem_keys (f : CS16ServerFetcher) (w : A2SWorld) (x : String)
    (l : List (PyVal × PyVal)) :
    ∀ acc : List (String × FetchResult),
      x ∈ (List.foldl (fetchStep f w) acc l).map Prod.fst
        ↔ (∃ s ∈ l, serverKey s.1 s.2 = x) ∨ x ∈ acc.map Prod.fst := by
  induction l with
  | nil => intro acc; simp
  | cons s l ih =>
      intro acc
      rw [List.foldl_cons, ih]
      unfold fetchStep
      rw [mem_keys_dictInsert]
      simp only [List.mem_cons]
      constructor
      · rintro (⟨t, ht, hx⟩ | hx | hx)
        · exact Or.inl ⟨t, Or.inr ht, hx⟩
        · exact Or.inl ⟨s, Or.inl rfl, hx.symm⟩
        · exact Or.inr hx
      · rintro (⟨t, ht | ht, hx⟩ | hx)
        · subst ht; exact Or.inr (Or.inl hx.symm)
        · exact Or.inl ⟨t, ht, hx⟩
        · exact Or.inr (Or.inr hx)

lemma fetchLoop_nodup_keys (f : CS16ServerFetcher) (w : A2SWorld)
    (l : List (PyVal × PyVal)) :
    ∀ acc : List (String × FetchResult),
      (acc.map Prod.fst).Nodup
        → ((List.foldl (fetchStep f w) acc l).map Prod.fst).Nodup := by
  induction l with
  | nil => intro acc h; simpa using h
  | cons s l ih =>
      intro acc h
      rw [List.foldl_cons]
      exact ih _ (nodup_keys_dictInsert _ _ _ h)

/-- C5: the batch result of `fetch_multiple` is keyed by the string
`"host:port"` built from the caller-supplied host value; the key list has
no duplicates, a key is present exactly when some requested pair produces
it, and the value stored under a key is the fetch of the *last* requested
pair with that key (later duplicate requests overwrite earlier ones). -/
theorem fetch_multiple_keymap (f : CS16ServerFetcher) (w : A2SWorld)
    (servers : List (PyVal × PyVal)) (k : String) (s : PyVal × PyVal)
    (hlast : lastRequest servers k = some s) :
    ((f.fetch_multiple w servers).map Prod.fst).Nodup ∧
    dictLookup k (f.fetch_multiple w servers) = some (f.fetch w s.1 s.2) ∧
    ∀ k2, (dictLookup k2 (f.fetch_multiple w servers)).isSome = true
      ↔ ∃ t ∈ servers, serverKey t.1 t.2 = k2 := by
  rw [fetch_multiple_eq_foldl]
  refine ⟨fetchLoop_nodup_keys f w servers [] (by simp), ?_, ?_⟩
  · rw [fetchLoop_lookup, hlast]
    rfl
  · intro k2
    rw [isSome_dictLookup_iff, fetchLoop_mem_keys]
    simp

/-- Witness for C5 on the concrete three-server batch. -/
theorem fetch_multiple_keymap_witness :
    (((CS16ServerFetcher.init 3).fetch_multiple demoWorldPlayersOk demoServers).map
        Prod.fst).Nodup ∧
    dictLookup "invalid1.test:27015"
        ((CS16ServerFetcher.init 3).fetch_multiple demoWorldPlayersOk demoServers)
      = some ((CS16ServerFetcher.init 3).fetch demoWorldPlayersOk
          (.pyStr "invalid1.test") (.pyInt 27015)) ∧
    ∀ k2, (dictLookup k2
        ((CS16ServerFetcher.init 3).fetch_multiple demoWorldPlayersOk
          demoServers)).isSome = true
      ↔ ∃ t ∈ demoServers, serverKey t.1 t.2 = k2 :=
  fetch_multiple_keymap (CS16ServerFetcher.init 3) demoWorldPlayersOk demoServers
    "invalid1.test:27015" (.pyStr "invalid1.test", .pyInt 27015) (by decide)
